import Mathlib

/-!
Verification development for the two background-task tool adapters of this
repository: the fetch-output adapter (`BashOutputInvocation` /
`BashOutputTool`) and the terminate adapter (`KillShellInvocation` /
`KillShellTool`).  The adapters delegate to a `BackgroundTaskManager`
facade whose implementation is not part of the visible sources; its
operations (`getTask`, `getOutput`, `killTask`) are modelled from the
specification (§4.5) and marked as such.

JavaScript-specific behaviour is embedded faithfully:
  * truthiness of optional strings (`undefined` and `""` are falsy) and of
    numbers (`0` is falsy);
  * `Array.prototype.join` (`joinSep`);
  * `new RegExp(pattern)` / `regex.test(line)` are modelled by a concrete
    regular-expression engine (`jsCompileRegex` / `rtest`) over a subset of
    JavaScript syntax: literals, `.`, the anchors `^` and `$`, grouping
    `( )`, alternation `|`, the quantifiers `*` `+` `?`, and escapes of
    non-alphanumeric characters.  Patterns outside the subset (character
    classes, `\d`-style class escapes, brace quantifiers) are rejected by
    the model; validation and execution share the single `jsCompileRegex`
    function, exactly as both call sites share `new RegExp` in the source.
    `test` is unanchored search, case sensitive, with `.` not matching a
    line terminator, as in JavaScript.
-/

namespace GCli

/-- Symbols seen by the matcher: a virtual begin-of-input marker, a virtual
end-of-input marker, and ordinary characters.  The markers let the `^` and
`$` anchors be treated as ordinary symbol matchers. -/
inductive RSym where
  | bos : RSym
  | eos : RSym
  | chr : Char → RSym
deriving DecidableEq, Repr

/-- Abstract syntax of the supported regular-expression subset. -/
inductive Regex where
  | emp : Regex
  | eps : Regex
  | lit : Char → Regex
  | dot : Regex
  | anysym : Regex
  | bosA : Regex
  | eosA : Regex
  | alt : Regex → Regex → Regex
  | cat : Regex → Regex → Regex
  | star : Regex → Regex
deriving DecidableEq, Repr

/-- Whether the regular expression accepts the empty word. -/
def nullable : Regex → Bool
  | .emp => false
  | .eps => true
  | .lit _ => false
  | .dot => false
  | .anysym => false
  | .bosA => false
  | .eosA => false
  | .alt r1 r2 => nullable r1 || nullable r2
  | .cat r1 r2 => nullable r1 && nullable r2
  | .star _ => true

/-- Brzozowski derivative of a regular expression by one symbol. -/
def deriv : Regex → RSym → Regex
  | .emp, _ => .emp
  | .eps, _ => .emp
  | .lit c, a => if a = RSym.chr c then .eps else .emp
  | .dot, a =>
      match a with
      | .chr c => if c = '\n' then .emp else .eps
      | _ => .emp
  | .anysym, _ => .eps
  | .bosA, a => if a = RSym.bos then .eps else .emp
  | .eosA, a => if a = RSym.eos then .eps else .emp
  | .alt r1 r2, a => .alt (deriv r1 a) (deriv r2 a)
  | .cat r1 r2, a =>
      if nullable r1 then .alt (.cat (deriv r1 a) r2) (deriv r2 a)
      else .cat (deriv r1 a) r2
  | .star r, a => .cat (deriv r a) (.star r)

/-- Full match of a symbol sequence against a regular expression, by
iterated derivatives. -/
def matchSyms (r : Regex) (l : List RSym) : Bool :=
  nullable (l.foldl deriv r)

/-- A string as a symbol sequence, bracketed by the virtual markers. -/
def toSyms (s : String) : List RSym :=
  RSym.bos :: (s.data.map RSym.chr ++ [RSym.eos])

/-- Model of JavaScript `regex.test(s)`: unanchored search, i.e. a full
match of the marker-bracketed input against `Σ* r Σ*` where `Σ` also
covers the markers. -/
def rtest (r : Regex) (s : String) : Bool :=
  matchSyms (.cat (.star .anysym) (.cat r (.star .anysym))) (toSyms s)

/-- Metacharacters that cannot stand as bare literals in a pattern. -/
def isBareMeta (c : Char) : Bool :=
  c = '*' || c = '+' || c = '?' || c = ')' || c = '|' || c = '[' ||
  c = '\\' || c = '(' || c = '.' || c = '^' || c = '$'

/-- Apply an optional quantifier following an atom. -/
def applyQuant (r : Regex) : List Char → Regex × List Char
  | '*' :: rest => (.star r, rest)
  | '+' :: rest => (.cat r (.star r), rest)
  | '?' :: rest => (.alt r .eps, rest)
  | rest => (r, rest)

mutual

/-- Parse one atom: a literal, `.`, an anchor, an escape, or a group. -/
def parseAtom : Nat → List Char → Option (Regex × List Char)
  | 0, _ => none
  | _, [] => none
  | fuel + 1, c :: rest =>
    if c = '(' then
      match parseAlt fuel rest with
      | some (r, ')' :: rest2) => some (r, rest2)
      | _ => none
    else if c = '.' then some (.dot, rest)
    else if c = '^' then some (.bosA, rest)
    else if c = '$' then some (.eosA, rest)
    else if c = '\\' then
      match rest with
      | [] => none
      | e :: rest2 => if e.isAlphanum then none else some (.lit e, rest2)
    else if isBareMeta c then none
    else some (.lit c, rest)

/-- Parse a concatenation of quantified atoms, stopping at `|`, `)` or the
end of the pattern. -/
def parseCat : Nat → List Char → Option (Regex × List Char)
  | 0, _ => none
  | fuel + 1, cs =>
    match cs with
    | [] => some (.eps, [])
    | c :: _ =>
      if c = '|' || c = ')' then some (.eps, cs)
      else
        match parseAtom fuel cs with
        | none => none
        | some (r, rest) =>
          let q := applyQuant r rest
          match parseCat fuel q.2 with
          | none => none
          | some (r2, rest2) => some (.cat q.1 r2, rest2)

/-- Parse an alternation of concatenations. -/
def parseAlt : Nat → List Char → Option (Regex × List Char)
  | 0, _ => none
  | fuel + 1, cs =>
    match parseCat fuel cs with
    | none => none
    | some (r1, rest) =>
      match rest with
      | '|' :: rest2 =>
        match parseAlt fuel rest2 with
        | none => none
        | some (r2, rest3) => some (.alt r1 r2, rest3)
      | _ => some (r1, rest)

end

/-- Model of `new RegExp(pattern)` over the supported subset: `some` of the
parsed expression when the whole pattern parses, `none` when the pattern
fails to compile. -/
def jsCompileRegex (s : String) : Option Regex :=
  match parseAlt (4 * s.length + 8) s.data with
  | some (r, []) => some r
  | _ => none

/-- JavaScript truthiness of an optional string: `undefined` and the empty
string are falsy. -/
def strTruthy : Option String → Bool
  | none => false
  | some s => !(s == "")

/-- JavaScript template-literal rendering of a possibly-`undefined` string
value. -/
def optStr : Option String → String
  | none => "undefined"
  | some s => s

/-- Model of JavaScript `Array.prototype.join(sep)`. -/
def joinSep (sep : String) : List String → String
  | [] => ""
  | x :: xs => xs.foldl (fun acc y => acc ++ sep ++ y) x

/-- Model of JavaScript `String.prototype.trim()`: remove leading and
trailing whitespace. -/
def jsTrim (s : String) : String :=
  ⟨((s.data.dropWhile Char.isWhitespace).reverse.dropWhile
      Char.isWhitespace).reverse⟩

/-- The record of one spawned background process, as the adapters see it
(data model of spec §3; the `Task` interface itself is not among the
visible sources).  `status` is the open status string the adapters compare
and interpolate; `pid` is absent when no process identifier was obtained;
`output` is the task's captured output buffer, one line per entry. -/
structure Task where
  command : String
  status : String
  pid : Option Nat
  output : List String
deriving DecidableEq, Repr

/-- The task registry underlying the `BackgroundTaskManager`, modelled as
an association list from task identifiers to `Task` records. -/
structure ManagerState where
  tasks : List (String × Task)
deriving DecidableEq, Repr

/-- Modelled from the spec: `BackgroundTaskManager.getTask` (§4.5), a pure
registry lookup; the manager implementation is not among the visible
sources.  A `none` key models calling with `undefined`, which finds no
task. -/
def getTask (mgr : ManagerState) (id : Option String) : Option Task :=
  match id with
  | none => none
  | some s => (mgr.tasks.find? (fun kv => kv.1 == s)).map (fun kv => kv.2)

/-- Modelled from the spec: `BackgroundTaskManager.getOutput` (§4.5, §4.1),
not among the visible sources: not-found when the identifier is unknown,
otherwise the buffered lines from the given offset on. -/
def getOutput (mgr : ManagerState) (id : Option String) (offset : Nat) :
    Option (List String) :=
  (getTask mgr id).map (fun t => t.output.drop offset)

/-- Outcome oracle for one `killTask` call, standing for the operating
system and process nondeterminism: the delivered boolean, or a raised
error. -/
inductive KillBehavior where
  | ok : Bool → KillBehavior
  | raise : String → KillBehavior
deriving DecidableEq, Repr

/-- Transition a task's status to `killed` in the registry. -/
def setKilled (mgr : ManagerState) (s : String) : ManagerState :=
  ⟨mgr.tasks.map (fun kv =>
    if kv.1 == s then (kv.1, { kv.2 with status := "killed" }) else kv)⟩

/-- Modelled from the spec: `BackgroundTaskManager.killTask` (§4.5, §4.3),
not among the visible sources: returns the delivery boolean, transitioning
the task's status to `killed` exactly on success; may raise. -/
def killTask (mgr : ManagerState) (id : Option String) (beh : KillBehavior) :
    Except String (Bool × ManagerState) :=
  match beh with
  | .raise msg => .error msg
  | .ok b =>
    match id with
    | none => .ok (false, mgr)
    | some s => if b then .ok (true, setKilled mgr s) else .ok (false, mgr)

/-- Manager calls an adapter run performs, in order. -/
inductive MgrEvent where
  | getTaskCall : Option String → MgrEvent
  | getOutputCall : Option String → Nat → MgrEvent
  | compileFilter : String → MgrEvent
  | killTaskCall : Option String → MgrEvent
deriving DecidableEq, Repr

/-- The `ToolResult` fields the adapters populate. -/
structure ToolResult where
  llmContent : String
  returnDisplay : String
deriving DecidableEq, Repr

/-- Parameters of the fetch-output tool (`BashOutputParams`).  `bash_id`
is `Option` so that an absent (`undefined`) identifier is representable
for validation. -/
structure BashOutputParams where
  bash_id : Option String
  filter : Option String
deriving DecidableEq, Repr

/-- Modelled from the spec/runtime: the `message` of the `SyntaxError`
raised by `new RegExp` on an invalid pattern.  Engines append a specific
reason; the model keeps the part every engine includes, which names the
pattern. -/
def regexSyntaxErrorMessage (pat : String) : String :=
  "Invalid regular expression: /" ++ pat ++ "/"

/-- Which return statement of `BashOutputInvocation.execute` produced the
result. -/
inductive FetchOutcome where
  | notFound
  | readFailed
  | invalidFilter
  | report
deriving DecidableEq, Repr

/-- Result of one fetch-output execution: the returned `ToolResult`, the
branch that produced it, the manager state afterwards, and the manager
calls made. -/
structure FetchResult where
  result : ToolResult
  outcome : FetchOutcome
  mgrAfter : ManagerState
  trace : List MgrEvent
deriving DecidableEq, Repr

/-- The report formatting of `BashOutputInvocation.execute` (source lines
78–94): status line, PID line when `task.pid` is truthy, buffered-line
count, matched-line count when a truthy filter was supplied, then the
output text. -/
def formatFetchReport (task : Task) (allOutput filteredOutput : List String)
    (filtered : Bool) : ToolResult :=
  let outputText := joinSep ("\n") filteredOutput
  let statusText := "Status: " ++ task.status
  let pidText :=
    match task.pid with
    | none => ""
    | some p => if p = 0 then "" else "PID: " ++ toString p
  let lines1 := [statusText]
  let lines2 := if pidText == "" then lines1 else lines1 ++ [pidText]
  let lines3 := lines2 ++ ["Lines buffered: " ++ toString allOutput.length]
  let lines4 :=
    if filtered then
      lines3 ++ ["Matched lines: " ++ toString filteredOutput.length]
    else lines3
  { llmContent := joinSep ("\n") [joinSep ("\n") lines4, "", "Output:", outputText]
  , returnDisplay := joinSep (" | ") lines4 ++ "\n" ++ outputText }

/-- Embedding of `BashOutputInvocation.execute` (source lines 44–95). -/
def bashOutputExecute (mgr : ManagerState) (p : BashOutputParams) : FetchResult :=
  let bid := optStr p.bash_id
  match getTask mgr p.bash_id with
  | none =>
    { result :=
        { llmContent := "Background task not found: " ++ bid ++
            ". Task may have been cleaned up."
        , returnDisplay := "Error: Task " ++ bid ++ " not found." }
    , outcome := .notFound
    , mgrAfter := mgr
    , trace := [.getTaskCall p.bash_id] }
  | some task =>
    match getOutput mgr p.bash_id 0 with
    | none =>
      { result :=
          { llmContent := "Failed to retrieve output for task " ++ bid ++ "."
          , returnDisplay := "Error: Failed to retrieve output." }
      , outcome := .readFailed
      , mgrAfter := mgr
      , trace := [.getTaskCall p.bash_id, .getOutputCall p.bash_id 0] }
    | some allOutput =>
      if strTruthy p.filter then
        let f := optStr p.filter
        match jsCompileRegex f with
        | none =>
          { result :=
              { llmContent := "Invalid filter regex: " ++ f ++ ". Error: " ++
                  regexSyntaxErrorMessage f
              , returnDisplay := "Error: Invalid filter pattern." }
          , outcome := .invalidFilter
          , mgrAfter := mgr
          , trace := [.getTaskCall p.bash_id, .getOutputCall p.bash_id 0,
              .compileFilter f] }
        | some regex =>
          { result := formatFetchReport task allOutput
              (allOutput.filter (fun line => rtest regex line)) true
          , outcome := .report
          , mgrAfter := mgr
          , trace := [.getTaskCall p.bash_id, .getOutputCall p.bash_id 0,
              .compileFilter f] }
      else
        { result := formatFetchReport task allOutput allOutput false
        , outcome := .report
        , mgrAfter := mgr
        , trace := [.getTaskCall p.bash_id, .getOutputCall p.bash_id 0] }

/-- The identifier check both validators perform: rejected when missing
(`undefined`), empty, or whitespace-only. -/
def bashIdBad (b : Option String) : Bool :=
  match b with
  | none => true
  | some s => s == "" || (jsTrim s).length == 0

/-- Embedding of `BashOutputTool.validateToolParamValues` (source lines
132–148). -/
def bashOutputValidate (p : BashOutputParams) : Option String :=
  if bashIdBad p.bash_id then
    some ("bash_id is required and cannot be empty.")
  else if strTruthy p.filter then
    match jsCompileRegex (optStr p.filter) with
    | none =>
      some ("Invalid regex pattern in filter: " ++
        regexSyntaxErrorMessage (optStr p.filter))
    | some _ => none
  else none

/-- The `ToolExecuteConfirmationDetails` fields the terminate adapter
populates. -/
structure ExecConfirmationDetails where
  type : String
  title : String
  command : String
  rootCommand : String
deriving DecidableEq, Repr

/-- Embedding of `BashOutputInvocation.getConfirmationDetails` (source
lines 38–42): always `false`, i.e. no confirmation. -/
def bashOutputGetConfirmationDetails (_mgr : ManagerState)
    (_p : BashOutputParams) : Option ExecConfirmationDetails :=
  none

/-- Parameters of the terminate tool (`KillShellParams`). -/
structure KillShellParams where
  shell_id : Option String
deriving DecidableEq, Repr

/-- Embedding of `KillShellInvocation.getConfirmationDetails`
(kill-shell.ts lines 40–60). -/
def killShellGetConfirmationDetails (mgr : ManagerState) (p : KillShellParams) :
    Option ExecConfirmationDetails :=
  match getTask mgr p.shell_id with
  | none => none
  | some task =>
    some
      { type := "exec"
      , title := "Confirm Terminate Background Task"
      , command := task.command
      , rootCommand := "kill" }

/-- Model of `getErrorMessage` from `utils/errors.js` (not among the
visible sources).  Modelled from the spec: the underlying error text is
preserved in the message; our errors carry their message as a string. -/
def getErrorMessage (msg : String) : String := msg

/-- Which return statement of `KillShellInvocation.execute` produced the
result. -/
inductive KillOutcome where
  | notFound
  | notRunning
  | killFailed
  | killSuccess
  | killError
deriving DecidableEq, Repr

/-- Result of one terminate execution: the returned `ToolResult`, the
branch that produced it, the manager state afterwards, and the manager
calls made. -/
structure KillResult where
  result : ToolResult
  outcome : KillOutcome
  mgrAfter : ManagerState
  trace : List MgrEvent
deriving DecidableEq, Repr

/-- Embedding of `KillShellInvocation.execute` (kill-shell.ts lines
62–101); `beh` is the oracle for the one `killTask` call. -/
def killShellExecute (mgr : ManagerState) (beh : KillBehavior)
    (p : KillShellParams) : KillResult :=
  let sid := optStr p.shell_id
  match getTask mgr p.shell_id with
  | none =>
    { result :=
        { llmContent := "Background task not found: " ++ sid ++
            ". Task may have already completed or been cleaned up."
        , returnDisplay := "Error: Task " ++ sid ++ " not found." }
    , outcome := .notFound
    , mgrAfter := mgr
    , trace := [.getTaskCall p.shell_id] }
  | some task =>
    if task.status == "running" then
      match killTask mgr p.shell_id beh with
      | .error e =>
        { result :=
            { llmContent := "Error terminating background task " ++ sid ++
                ": " ++ getErrorMessage e
            , returnDisplay := "Error: " ++ getErrorMessage e }
        , outcome := .killError
        , mgrAfter := mgr
        , trace := [.getTaskCall p.shell_id, .killTaskCall p.shell_id] }
      | .ok (killed, mgr2) =>
        if killed then
          { result :=
              { llmContent := "Successfully terminated background task " ++
                  sid ++ " (command: " ++ task.command ++ ")"
              , returnDisplay := "Task " ++ sid ++ " terminated." }
          , outcome := .killSuccess
          , mgrAfter := mgr2
          , trace := [.getTaskCall p.shell_id, .killTaskCall p.shell_id] }
        else
          { result :=
              { llmContent := "Failed to kill task " ++ sid ++
                  ". Task may have already terminated."
              , returnDisplay := "Failed to kill task." }
          , outcome := .killFailed
          , mgrAfter := mgr2
          , trace := [.getTaskCall p.shell_id, .killTaskCall p.shell_id] }
    else
      { result :=
          { llmContent := "Task " ++ sid ++ " is not running (status: " ++
              task.status ++ "). No need to kill."
          , returnDisplay := "Task already " ++ task.status ++ "." }
      , outcome := .notRunning
      , mgrAfter := mgr
      , trace := [.getTaskCall p.shell_id] }

/-- Embedding of `KillShellTool.validateToolParamValues` (kill-shell.ts
lines 133–141). -/
def killShellValidate (p : KillShellParams) : Option String :=
  if bashIdBad p.shell_id then
    some ("shell_id is required and cannot be empty.")
  else none

/-- The PID line of the report as a zero-or-one element list of lines:
present exactly when `pid` is truthy in JavaScript, i.e. present and
nonzero. -/
def pidLine (pid : Option Nat) : List String :=
  match pid with
  | none => []
  | some p => if p = 0 then [] else ["PID: " ++ toString p]

/-- The PID line as the specification reads it: present exactly when the
task has a PID at all. -/
def pidLinePresent (pid : Option Nat) : List String :=
  match pid with
  | some q => ["PID: " ++ toString q]
  | none => []

/-- A concrete running task for the concrete evaluations. -/
def sampleTask : Task :=
  { command := "sleep 100"
  , status := "running"
  , pid := some 123
  , output := ["alpha", "beta", "gamma"] }

/-- A registry holding `sampleTask` under identifier `t1`. -/
def sampleMgr : ManagerState := ⟨[("t1", sampleTask)]⟩

/-- A concrete task in a terminal status. -/
def doneTask : Task :=
  { command := "npm test"
  , status := "completed"
  , pid := some 77
  , output := ["ok"] }

/-- A registry holding `doneTask` under identifier `t2`. -/
def doneMgr : ManagerState := ⟨[("t2", doneTask)]⟩

/-- The empty registry. -/
def emptyMgr : ManagerState := ⟨[]⟩

/-- The model's compiled form of the pattern a$. -/
def regexAEnd : Regex := (jsCompileRegex ("a$")).getD .emp

example : (jsCompileRegex ("a$")).isSome = true := by decide
example : jsCompileRegex ("(") = none := by decide
example : jsCompileRegex (")") = none := by decide
example : jsCompileRegex ("*") = none := by decide
example : (jsCompileRegex ("")).isSome = true := by decide

theorem joinSep_cons_flatten (sep x : String) (l rest : List String) :
    joinSep sep (joinSep sep (x :: l) :: rest) =
      joinSep sep ((x :: l) ++ rest) := by
  simp [joinSep, List.foldl_append]

theorem append_ne_empty_left (s t : String) (h : s.length ≠ 0) :
    s ++ t ≠ "" := by
  intro he
  have hl := congrArg String.length he
  rw [String.length_append] at hl
  have h0 : ("" : String).length = 0 := rfl
  omega

theorem length_zero_iff_empty (s : String) : s.length = 0 ↔ s = "" := by
  constructor
  · intro h
    apply String.ext
    have h2 : s.data.length = 0 := h
    simpa using List.length_eq_zero.mp h2
  · intro h
    subst h
    rfl

theorem bashIdBad_iff (b : Option String) :
    bashIdBad b = true ↔ b = none ∨ ∃ s, b = some s ∧ jsTrim s = "" := by
  cases b with
  | none => simp [bashIdBad]
  | some s =>
    simp only [bashIdBad, Bool.or_eq_true, beq_iff_eq, Option.some.injEq]
    constructor
    · rintro (rfl | h)
      · exact Or.inr ⟨"", rfl, rfl⟩
      · refine Or.inr ⟨s, rfl, ?_⟩
        have h2 : (jsTrim s).length = 0 := by
          have := of_decide_eq_true (by simpa [Nat.beq_eq_true_eq] using h)
          omega
        exact (length_zero_iff_empty (jsTrim s)).mp h2
    · rintro (h | ⟨s2, hs2, ht⟩)
      · cases h
      · subst hs2
        right
        have : (jsTrim s).length = 0 := (length_zero_iff_empty (jsTrim s)).mpr ht
        simpa [Nat.beq_eq_true_eq] using this

theorem formatFetchReport_llm (task : Task)
    (allOutput filteredOutput : List String) (filtered : Bool) :
    (formatFetchReport task allOutput filteredOutput filtered).llmContent =
      joinSep ("\n")
        ((["Status: " ++ task.status] ++ pidLine task.pid ++
          ["Lines buffered: " ++ toString allOutput.length] ++
          (if filtered then
            ["Matched lines: " ++ toString filteredOutput.length]
           else [])) ++
         ["", "Output:", joinSep ("\n") filteredOutput]) := by
  have hpid : ∀ (p : Nat), (("PID: " ++ toString p) == "") = false := by
    intro p
    rw [beq_eq_false_iff_ne]
    exact append_ne_empty_left _ _ (by decide)
  unfold formatFetchReport pidLine
  cases task.pid with
  | none =>
    cases filtered <;> simp [joinSep_cons_flatten]
  | some p =>
    by_cases hp : p = 0
    · subst hp
      cases filtered <;> simp [joinSep_cons_flatten]
    · cases filtered <;> simp [hp, hpid, joinSep_cons_flatten]

theorem validate_none_compiles (p : BashOutputParams)
    (h : bashOutputValidate p = none) (hf : strTruthy p.filter = true) :
    ∃ r, jsCompileRegex (optStr p.filter) = some r := by
  unfold bashOutputValidate at h
  by_cases hb : bashIdBad p.bash_id = true
  · rw [if_pos hb] at h
    exact absurd h (by simp)
  · rw [if_neg hb, if_pos hf] at h
    cases hc : jsCompileRegex (optStr p.filter) with
    | none => rw [hc] at h; exact absurd h (by simp)
    | some r => exact ⟨r, rfl⟩

theorem fetch_exec_filtered (mgr : ManagerState) (p : BashOutputParams)
    (task : Task) (L : List String) (f : String) (r : Regex)
    (hT : getTask mgr p.bash_id = some task)
    (hO : getOutput mgr p.bash_id 0 = some L)
    (hf : p.filter = some f) (hne : f ≠ "")
    (hc : jsCompileRegex f = some r) :
    bashOutputExecute mgr p =
      { result := formatFetchReport task L
          (L.filter (fun line => rtest r line)) true
      , outcome := .report
      , mgrAfter := mgr
      , trace := [.getTaskCall p.bash_id, .getOutputCall p.bash_id 0,
          .compileFilter f] } := by
  have hstr : strTruthy p.filter = true := by
    rw [hf]; simp [strTruthy, hne]
  have hopt : optStr p.filter = f := by rw [hf]; rfl
  unfold bashOutputExecute
  rw [hT, hO]
  simp [hstr, hopt, hc]

theorem fetch_exec_unfiltered (mgr : ManagerState) (p : BashOutputParams)
    (task : Task) (L : List String)
    (hT : getTask mgr p.bash_id = some task)
    (hO : getOutput mgr p.bash_id 0 = some L)
    (hstr : strTruthy p.filter = false) :
    bashOutputExecute mgr p =
      { result := formatFetchReport task L L false
      , outcome := .report
      , mgrAfter := mgr
      , trace := [.getTaskCall p.bash_id, .getOutputCall p.bash_id 0] } := by
  unfold bashOutputExecute
  rw [hT, hO]
  simp [hstr]

theorem pidLine_of_ne_zero (pid : Option Nat) (hpid : pid ≠ some 0) :
    pidLine pid = pidLinePresent pid := by
  unfold pidLine pidLinePresent
  cases hq : pid with
  | none => rfl
  | some q =>
    have hz : q ≠ 0 := by
      rintro rfl
      exact hpid hq
    simp [hz]

/-- Claim C4: terminating an existing task whose status is not `running`
is a no-op: it returns the explanatory not-running message reporting the
task's current status as a normal result, makes no `killTask` call, and
leaves the manager state unchanged. -/
theorem kill_terminal_noop (mgr : ManagerState) (beh : KillBehavior)
    (p : KillShellParams) (task : Task)
    (hT : getTask mgr p.shell_id = some task)
    (hS : task.status ≠ "running") :
    (killShellExecute mgr beh p).outcome = KillOutcome.notRunning ∧
    (killShellExecute mgr beh p).result =
      { llmContent := "Task " ++ optStr p.shell_id ++
          " is not running (status: " ++ task.status ++ "). No need to kill."
      , returnDisplay := "Task already " ++ task.status ++ "." } ∧
    (killShellExecute mgr beh p).mgrAfter = mgr ∧
    (killShellExecute mgr beh p).trace = [MgrEvent.getTaskCall p.shell_id] ∧
    ∀ i, MgrEvent.killTaskCall i ∉ (killShellExecute mgr beh p).trace := by
  have hb : (task.status == "running") = false := beq_eq_false_iff_ne.mpr hS
  unfold killShellExecute
  rw [hT]
  simp [hb]

theorem kill_terminal_noop_witness :
    (killShellExecute doneMgr (.ok true) ⟨some ("t2")⟩).outcome =
      KillOutcome.notRunning ∧
    (killShellExecute doneMgr (.ok true) ⟨some ("t2")⟩).mgrAfter = doneMgr ∧
    (killShellExecute doneMgr (.ok true) ⟨some ("t2")⟩).result.returnDisplay =
      "Task already completed." :=
  have h := kill_terminal_noop doneMgr (.ok true) ⟨some ("t2")⟩ doneTask
    (by decide) (by decide)
  ⟨h.1, h.2.2.1, by rw [h.2.1]; decide⟩

/-- Claim C5: a fetch-output or terminate call whose identifier has no
task returns a normal not-found result whose messages name the missing
identifier, distinguished from every other outcome by the `notFound`
branch tag. -/
theorem not_found_results (mgr : ManagerState) (pB : BashOutputParams)
    (pK : KillShellParams) (beh : KillBehavior)
    (hB : getTask mgr pB.bash_id = none)
    (hK : getTask mgr pK.shell_id = none) :
    (bashOutputExecute mgr pB).outcome = FetchOutcome.notFound ∧
    (bashOutputExecute mgr pB).result =
      { llmContent := "Background task not found: " ++ optStr pB.bash_id ++
          ". Task may have been cleaned up."
      , returnDisplay := "Error: Task " ++ optStr pB.bash_id ++ " not found." } ∧
    (killShellExecute mgr beh pK).outcome = KillOutcome.notFound ∧
    (killShellExecute mgr beh pK).result =
      { llmContent := "Background task not found: " ++ optStr pK.shell_id ++
          ". Task may have already completed or been cleaned up."
      , returnDisplay := "Error: Task " ++ optStr pK.shell_id ++ " not found." } := by
  unfold bashOutputExecute killShellExecute
  rw [hB, hK]
  simp

theorem not_found_results_witness :
    (bashOutputExecute emptyMgr ⟨some ("zzz"), none⟩).outcome =
      FetchOutcome.notFound ∧
    (bashOutputExecute emptyMgr ⟨some ("zzz"), none⟩).result.returnDisplay =
      "Error: Task zzz not found." ∧
    (killShellExecute emptyMgr (.ok true) ⟨some ("zzz")⟩).outcome =
      KillOutcome.notFound :=
  have h := not_found_results emptyMgr ⟨some ("zzz"), none⟩ ⟨some ("zzz")⟩
    (.ok true) (by decide) (by decide)
  ⟨h.1, by rw [h.2.1]; decide, h.2.2.1⟩

/-- Claim C7: only the terminate adapter requests confirmation: the
fetch-output adapter never returns confirmation details; the terminate
adapter returns details carrying the task's original command and the root
action name `kill` when the task exists, and none when it does not. -/
theorem confirmation_protocol (mgr : ManagerState) (pB : BashOutputParams)
    (pK : KillShellParams) :
    bashOutputGetConfirmationDetails mgr pB = none ∧
    (getTask mgr pK.shell_id = none →
      killShellGetConfirmationDetails mgr pK = none) ∧
    ∀ task, getTask mgr pK.shell_id = some task →
      killShellGetConfirmationDetails mgr pK =
        some
          { type := "exec"
          , title := "Confirm Terminate Background Task"
          , command := task.command
          , rootCommand := "kill" } := by
  refine ⟨rfl, ?_, ?_⟩
  · intro h
    unfold killShellGetConfirmationDetails
    rw [h]
  · intro task h
    unfold killShellGetConfirmationDetails
    rw [h]

theorem confirmation_protocol_witness :
    bashOutputGetConfirmationDetails sampleMgr ⟨some ("t1"), none⟩ = none ∧
    killShellGetConfirmationDetails emptyMgr ⟨some ("t1")⟩ = none ∧
    killShellGetConfirmationDetails sampleMgr ⟨some ("t1")⟩ =
      some
        { type := "exec"
        , title := "Confirm Terminate Background Task"
        , command := sampleTask.command
        , rootCommand := "kill" } :=
  have h1 := confirmation_protocol sampleMgr ⟨some ("t1"), none⟩ ⟨some ("t1")⟩
  have h2 := confirmation_protocol emptyMgr ⟨some ("t1"), none⟩ ⟨some ("t1")⟩
  ⟨h1.1, h2.2.1 (by decide), h1.2.2 sampleTask (by decide)⟩

/-- Claim C8: terminating a running task reports, for a `killTask` call
answering `true`, a success message that includes the task's original
command, and for `false`, the failure message; both are ordinary returned
results. -/
theorem kill_running_results (mgr : ManagerState) (p : KillShellParams)
    (task : Task)
    (hT : getTask mgr p.shell_id = some task)
    (hS : task.status = "running") :
    ((killShellExecute mgr (.ok true) p).outcome = KillOutcome.killSuccess ∧
     (killShellExecute mgr (.ok true) p).result =
       { llmContent := "Successfully terminated background task " ++
           optStr p.shell_id ++ " (command: " ++ task.command ++ ")"
       , returnDisplay := "Task " ++ optStr p.shell_id ++ " terminated." }) ∧
    ((killShellExecute mgr (.ok false) p).outcome = KillOutcome.killFailed ∧
     (killShellExecute mgr (.ok false) p).result =
       { llmContent := "Failed to kill task " ++ optStr p.shell_id ++
           ". Task may have already terminated."
       , returnDisplay := "Failed to kill task." }) := by
  have hb : (task.status == "running") = true := beq_iff_eq.mpr hS
  obtain ⟨sid, hsid⟩ : ∃ s, p.shell_id = some s := by
    cases hp : p.shell_id with
    | none => rw [hp] at hT; exact absurd hT (by simp [getTask])
    | some s => exact ⟨s, rfl⟩
  rw [hsid] at hT
  unfold killShellExecute killTask
  rw [hsid, hT]
  simp [hb]

theorem kill_running_results_witness :
    (killShellExecute sampleMgr (.ok true) ⟨some ("t1")⟩).result.llmContent =
      "Successfully terminated background task t1 (command: sleep 100)" ∧
    (killShellExecute sampleMgr (.ok false) ⟨some ("t1")⟩).result.returnDisplay =
      "Failed to kill task." :=
  have h := kill_running_results sampleMgr ⟨some ("t1")⟩ sampleTask
    (by decide) (by decide)
  ⟨by rw [h.1.2]; decide, by rw [h.2.2]⟩

/-- Claim C1 (counterexample): on an existing task, a fetch-output call
whose filter fails to compile does read the task output first: the
`getOutput` call appears in the trace strictly before the filter
compilation, refuting the claim that no `getOutput` call precedes it. -/
theorem invalid_filter_output_read_first_cex :
    (bashOutputExecute sampleMgr ⟨some ("t1"), some ("(")⟩).outcome =
      FetchOutcome.invalidFilter ∧
    (bashOutputExecute sampleMgr ⟨some ("t1"), some ("(")⟩).trace =
      [MgrEvent.getTaskCall (some ("t1")),
       MgrEvent.getOutputCall (some ("t1")) 0,
       MgrEvent.compileFilter ("(")] := by
  decide

/-- Claim C1 (amended): a fetch-output call on an existing task whose
non-empty filter fails to compile returns the invalid-pattern message
naming the pattern, mutates no task state, and stops before filtering or
formatting; the buffered output is, however, read first — the one
`getOutput` call precedes the filter compilation in the trace. -/
theorem invalid_filter_aborts (mgr : ManagerState) (p : BashOutputParams)
    (task : Task) (f : String)
    (hT : getTask mgr p.bash_id = some task)
    (hf : p.filter = some f) (hne : f ≠ "")
    (hc : jsCompileRegex f = none) :
    (bashOutputExecute mgr p).outcome = FetchOutcome.invalidFilter ∧
    (bashOutputExecute mgr p).result =
      { llmContent := "Invalid filter regex: " ++ f ++ ". Error: " ++
          regexSyntaxErrorMessage f
      , returnDisplay := "Error: Invalid filter pattern." } ∧
    (bashOutputExecute mgr p).mgrAfter = mgr ∧
    (bashOutputExecute mgr p).trace =
      [MgrEvent.getTaskCall p.bash_id, MgrEvent.getOutputCall p.bash_id 0,
       MgrEvent.compileFilter f] := by
  have hstr : strTruthy p.filter = true := by
    rw [hf]; simp [strTruthy, hne]
  have hopt : optStr p.filter = f := by rw [hf]; rfl
  have hO : getOutput mgr p.bash_id 0 = some (task.output.drop 0) := by
    unfold getOutput
    rw [hT]
    rfl
  unfold bashOutputExecute
  rw [hT, hO]
  simp [hstr, hopt, hc]

theorem invalid_filter_aborts_witness :
    (bashOutputExecute sampleMgr ⟨some ("t1"), some ("(")⟩).result.returnDisplay =
      "Error: Invalid filter pattern." ∧
    (bashOutputExecute sampleMgr ⟨some ("t1"), some ("(")⟩).mgrAfter =
      sampleMgr :=
  have h := invalid_filter_aborts sampleMgr ⟨some ("t1"), some ("(")⟩
    sampleTask ("(") (by decide) rfl (by decide) (by decide)
  ⟨by rw [h.2.1], h.2.2.1⟩

/-- Claim C2 (counterexample): against buffered lines alpha, beta, gamma
the pattern a$ matches all three lines — each ends in the letter a — so
the report carries matched count 3 and all three lines, not the claimed
two lines alpha and gamma. -/
theorem filter_example_cex :
    (bashOutputExecute sampleMgr ⟨some ("t1"), some ("a$")⟩).result.llmContent =
      "Status: running\nPID: 123\nLines buffered: 3\nMatched lines: 3\n\nOutput:\nalpha\nbeta\ngamma" ∧
    (bashOutputExecute sampleMgr ⟨some ("t1"), some ("a$")⟩).result.llmContent ≠
      "Status: running\nPID: 123\nLines buffered: 3\nMatched lines: 2\n\nOutput:\nalpha\ngamma" := by
  decide

/-- Claim C2 (amended): with a valid non-empty filter over buffered lines
`L`, the report's output section is exactly the subsequence of `L` whose
members the compiled pattern matches, in original order; the matched count
is its length and the buffered count is the length of `L`.  At
`L = [alpha, beta, gamma]` with pattern a$ this yields all three lines,
matched count 3 of 3 buffered. -/
theorem fetch_filter_report (mgr : ManagerState) (p : BashOutputParams)
    (task : Task) (L : List String) (f : String) (r : Regex)
    (hT : getTask mgr p.bash_id = some task)
    (hO : getOutput mgr p.bash_id 0 = some L)
    (hf : p.filter = some f) (hne : f ≠ "")
    (hc : jsCompileRegex f = some r) :
    (bashOutputExecute mgr p).outcome = FetchOutcome.report ∧
    (bashOutputExecute mgr p).result.llmContent =
      joinSep ("\n")
        ((["Status: " ++ task.status] ++ pidLine task.pid ++
          ["Lines buffered: " ++ toString L.length] ++
          ["Matched lines: " ++ toString (L.filter (rtest r)).length]) ++
         ["", "Output:", joinSep ("\n") (L.filter (rtest r))]) := by
  rw [fetch_exec_filtered mgr p task L f r hT hO hf hne hc]
  refine ⟨rfl, ?_⟩
  rw [formatFetchReport_llm]
  simp

theorem fetch_filter_report_witness :
    (bashOutputExecute sampleMgr ⟨some ("t1"), some ("a$")⟩).result.llmContent =
      joinSep ("\n")
        ((["Status: " ++ sampleTask.status] ++ pidLine sampleTask.pid ++
          ["Lines buffered: " ++ toString sampleTask.output.length] ++
          ["Matched lines: " ++
             toString (sampleTask.output.filter (rtest regexAEnd)).length]) ++
         ["", "Output:",
          joinSep ("\n") (sampleTask.output.filter (rtest regexAEnd))]) :=
  (fetch_filter_report sampleMgr ⟨some ("t1"), some ("a$")⟩ sampleTask
    sampleTask.output ("a$") regexAEnd (by decide) (by decide) rfl
    (by decide) (by decide)).2

/-- Claim C3: a successful fetch report is, in order: the status line, a
PID line exactly when the task has a PID (operating-system pids are
nonzero, hypothesis `hpid`), the total buffered-line count, a matched-line
count exactly when a non-empty valid filter was supplied, and the
(filtered) output lines joined by newlines. -/
theorem fetch_report_structure (mgr : ManagerState) (p : BashOutputParams)
    (task : Task) (L : List String)
    (hT : getTask mgr p.bash_id = some task)
    (hO : getOutput mgr p.bash_id 0 = some L)
    (hpid : task.pid ≠ some 0) :
    (p.filter = none →
      (bashOutputExecute mgr p).result.llmContent =
        joinSep ("\n")
          ((["Status: " ++ task.status] ++ pidLinePresent task.pid ++
            ["Lines buffered: " ++ toString L.length]) ++
           ["", "Output:", joinSep ("\n") L])) ∧
    ∀ f r, p.filter = some f → f ≠ "" → jsCompileRegex f = some r →
      (bashOutputExecute mgr p).result.llmContent =
        joinSep ("\n")
          ((["Status: " ++ task.status] ++ pidLinePresent task.pid ++
            ["Lines buffered: " ++ toString L.length] ++
            ["Matched lines: " ++ toString (L.filter (rtest r)).length]) ++
           ["", "Output:", joinSep ("\n") (L.filter (rtest r))]) := by
  have hpl := pidLine_of_ne_zero task.pid hpid
  constructor
  · intro hf
    have hstr : strTruthy p.filter = false := by rw [hf]; rfl
    rw [fetch_exec_unfiltered mgr p task L hT hO hstr]
    rw [formatFetchReport_llm, hpl]
    simp
  · intro f r hf hne hc
    rw [fetch_exec_filtered mgr p task L f r hT hO hf hne hc]
    rw [formatFetchReport_llm, hpl]
    simp

theorem fetch_report_structure_witness :
    (bashOutputExecute sampleMgr ⟨some ("t1"), none⟩).result.llmContent =
      joinSep ("\n")
        ((["Status: " ++ sampleTask.status] ++ pidLinePresent sampleTask.pid ++
          ["Lines buffered: " ++ toString sampleTask.output.length]) ++
         ["", "Output:", joinSep ("\n") sampleTask.output]) :=
  (fetch_report_structure sampleMgr ⟨some ("t1"), none⟩ sampleTask
    sampleTask.output (by decide) (by decide) (by decide)).1 rfl


theorem matchSyms_alt (x y : Regex) (l : List RSym) :
    matchSyms (.alt x y) l = (matchSyms x l || matchSyms y l) := by
  induction l generalizing x y with
  | nil => rfl
  | cons a l ih =>
    have h1 : matchSyms (.alt x y) (a :: l) =
        matchSyms (.alt (deriv x a) (deriv y a)) l := rfl
    rw [h1, ih]
    rfl

theorem matchSyms_cat_starAny (l : List RSym) (r : Regex)
    (hr : nullable r = true) :
    matchSyms (.cat r (.star .anysym)) l = true := by
  induction l generalizing r with
  | nil => simp [matchSyms, nullable, hr]
  | cons a l ih =>
    have h1 : matchSyms (.cat r (.star .anysym)) (a :: l) =
        matchSyms (deriv (.cat r (.star .anysym)) a) l := rfl
    rw [h1]
    have h2 : deriv (.cat r (.star .anysym)) a =
        .alt (.cat (deriv r a) (.star .anysym))
          (.cat .eps (.star .anysym)) := by
      simp [deriv, hr]
    rw [h2, matchSyms_alt, ih .eps rfl]
    simp

theorem matchSyms_searchEps (l : List RSym) :
    matchSyms (.cat (.star .anysym) (.cat .eps (.star .anysym))) l = true := by
  cases l with
  | nil => rfl
  | cons a l =>
    have h1 : matchSyms
        (.cat (.star .anysym) (.cat .eps (.star .anysym))) (a :: l) =
        matchSyms
          (deriv (.cat (.star .anysym) (.cat .eps (.star .anysym))) a) l := rfl
    rw [h1]
    have h2 : deriv (.cat (.star .anysym) (.cat .eps (.star .anysym))) a =
        .alt (.cat (.cat .eps (.star .anysym)) (.cat .eps (.star .anysym)))
          (.alt (.cat .emp (.star .anysym)) (.cat .eps (.star .anysym))) := by
      simp [deriv, nullable]
    rw [h2, matchSyms_alt, matchSyms_alt,
      matchSyms_cat_starAny l .eps rfl]
    simp

theorem rtest_eps (s : String) : rtest .eps s = true := by
  unfold rtest
  exact matchSyms_searchEps (toSyms s)

/-- Claim C9: a fetch-output parameter object accepted by the validation
can never take the invalid-filter branch of execute, because validation
compiles the very same filter with the same `jsCompileRegex` that execute
compiles it with. -/
theorem validated_never_invalid_filter (p : BashOutputParams)
    (hv : bashOutputValidate p = none) (mgr : ManagerState) :
    (bashOutputExecute mgr p).outcome ≠ FetchOutcome.invalidFilter := by
  unfold bashOutputExecute
  cases hT : getTask mgr p.bash_id with
  | none => simp
  | some task =>
    cases hO : getOutput mgr p.bash_id 0 with
    | none => simp
    | some L =>
      by_cases hstr : strTruthy p.filter = true
      · obtain ⟨r, hr⟩ := validate_none_compiles p hv hstr
        simp [hstr, hr]
      · have hsf : strTruthy p.filter = false := by
          cases h2 : strTruthy p.filter
          · rfl
          · exact absurd h2 hstr
        simp [hsf]

theorem validated_never_invalid_filter_witness :
    bashOutputValidate ⟨some ("t1"), some ("a$")⟩ = none ∧
    (bashOutputExecute sampleMgr ⟨some ("t1"), some ("a$")⟩).outcome ≠
      FetchOutcome.invalidFilter :=
  ⟨by decide,
   validated_never_invalid_filter ⟨some ("t1"), some ("a$")⟩ (by decide)
     sampleMgr⟩

/-- Claim C10: an empty-string filter is treated exactly as an absent
filter: the two executions coincide, so all buffered lines are returned
and no matched-line count appears in the report, even though the empty
pattern is a valid regular expression that matches every line. -/
theorem empty_filter_treated_absent (mgr : ManagerState) (b : Option String)
    (task : Task) (L : List String)
    (hT : getTask mgr b = some task)
    (hO : getOutput mgr b 0 = some L) :
    bashOutputExecute mgr ⟨b, some ("")⟩ = bashOutputExecute mgr ⟨b, none⟩ ∧
    (bashOutputExecute mgr ⟨b, some ("")⟩).result.llmContent =
      joinSep ("\n")
        ((["Status: " ++ task.status] ++ pidLine task.pid ++
          ["Lines buffered: " ++ toString L.length]) ++
         ["", "Output:", joinSep ("\n") L]) ∧
    (jsCompileRegex ("") = some Regex.eps ∧
      ∀ s2, rtest Regex.eps s2 = true) := by
  have h1 := fetch_exec_unfiltered mgr ⟨b, some ("")⟩ task L hT hO rfl
  have h2 := fetch_exec_unfiltered mgr ⟨b, none⟩ task L hT hO rfl
  refine ⟨?_, ?_, by decide, rtest_eps⟩
  · rw [h1, h2]
  · rw [h1, formatFetchReport_llm]
    simp

theorem empty_filter_treated_absent_witness :
    bashOutputExecute sampleMgr ⟨some ("t1"), some ("")⟩ =
      bashOutputExecute sampleMgr ⟨some ("t1"), none⟩ :=
  (empty_filter_treated_absent sampleMgr (some ("t1")) sampleTask
    sampleTask.output (by decide) (by decide)).1

/-- Claim C6: fetch-output validation rejects exactly the parameter
objects whose `bash_id` is missing, empty, or whitespace-only (`jsTrim`
of it is empty) or whose supplied filter does not compile; terminate
validation rejects exactly a missing, empty, or whitespace-only
`shell_id`. -/
theorem validate_rejects_iff (pB : BashOutputParams) (pK : KillShellParams) :
    ((bashOutputValidate pB).isSome ↔
      ((pB.bash_id = none ∨ ∃ s, pB.bash_id = some s ∧ jsTrim s = "") ∨
       ∃ f, pB.filter = some f ∧ jsCompileRegex f = none)) ∧
    ((killShellValidate pK).isSome ↔
      (pK.shell_id = none ∨ ∃ s, pK.shell_id = some s ∧ jsTrim s = "")) := by
  constructor
  · by_cases hb : bashIdBad pB.bash_id = true
    · have hr := (bashIdBad_iff pB.bash_id).mp hb
      unfold bashOutputValidate
      rw [if_pos hb]
      simp [hr]
    · have hr : ¬(pB.bash_id = none ∨
          ∃ s, pB.bash_id = some s ∧ jsTrim s = "") :=
        fun hcon => hb ((bashIdBad_iff pB.bash_id).mpr hcon)
      unfold bashOutputValidate
      rw [if_neg hb]
      cases hf : pB.filter with
      | none => simp [strTruthy, hr]
      | some f =>
        by_cases hfe : f = ""
        · subst hfe
          have hst : strTruthy (some ("")) = false := rfl
          have hce : jsCompileRegex ("") = some Regex.eps := by decide
          simp [hst, hr, hce]
        · have hst : strTruthy (some f) = true := by
            simp [strTruthy, hfe]
          cases hc : jsCompileRegex f with
          | none => simp [hst, hc, hr, optStr]
          | some r => simp [hst, hc, hr, optStr]
  · unfold killShellValidate
    by_cases hb : bashIdBad pK.shell_id = true
    · rw [if_pos hb]
      simp [(bashIdBad_iff pK.shell_id).mp hb]
    · rw [if_neg hb]
      have hr : ¬(pK.shell_id = none ∨
          ∃ s, pK.shell_id = some s ∧ jsTrim s = "") :=
        fun hcon => hb ((bashIdBad_iff pK.shell_id).mpr hcon)
      simp [hr]

end GCli
